import Mathlib

/-!
Shallow embedding of `src/etl_pipeline.py` (class `ETLPipeline`).

Modelling conventions:
* A pandas `NaN` / absent cell is `Option.none`; a present cell is `some v`.
* `pd.to_numeric(..., errors='coerce')` is modelled by giving the raw
  `amount` / `price` cells the type `Option ℚ`: `some v` stands for a cell
  that coerces to the numeric value `v`, `none` for a cell that is absent or
  fails coercion.
* `drop_duplicates(keep='first')` is `dedupBy`, first-seen-wins.
* The sqlite store is a `DBState` record of three lists; `DELETE FROM t`
  followed by row-wise `INSERT` and `commit` replaces the corresponding list.
  An exception inside a load leaves that table unchanged (the uncommitted
  work is rolled back when the connection closes).
-/

namespace ETL

/-! ### Email validation (transform_customers, lines 90-100) -/

/-- Character class `[a-zA-Z0-9._%+-]` of the local part of the regex at
line 99 of `etl_pipeline.py`. -/
def localChar (c : Char) : Bool :=
  c.isAlpha || c.isDigit || c == '.' || c == '_' || c == '%' || c == '+' || c == '-'

/-- Character class `[a-zA-Z0-9.-]` of the domain part. -/
def domChar (c : Char) : Bool :=
  c.isAlpha || c.isDigit || c == '.' || c == '-'

/-- Full match of `[a-zA-Z0-9.-]+\.[a-zA-Z]{2,}` against `dom`.  With
backtracking this succeeds iff the split at the last `'.'` gives a nonempty
`[a-zA-Z0-9.-]+` part and a final label of at least two letters (an
all-letter final label contains no dot, so a successful split is always at
the last dot). -/
def domainPartMatch (dom : List Char) : Bool :=
  let tldRev := dom.reverse.takeWhile (fun c => c != '.')
  match dom.reverse.drop tldRev.length with
  | [] => false
  | _ :: dRev =>
    !dRev.isEmpty && dRev.reverse.all domChar &&
      decide (tldRev.length ≥ 2) && tldRev.all Char.isAlpha

/-- Full match of `[a-zA-Z0-9._%+-]+@[a-zA-Z0-9.-]+\.[a-zA-Z]{2,}` against
`cs`.  Neither character class contains `'@'`, so a matching string holds
exactly one `'@'`. -/
def emailCore (cs : List Char) : Bool :=
  match cs.splitOn '@' with
  | [loc, dom] => !loc.isEmpty && loc.all localChar && domainPartMatch dom
  | _ => false

/-- Python `re.match(r'^[a-zA-Z0-9._%+-]+@[a-zA-Z0-9.-]+\.[a-zA-Z]{2,}$', s)`
as used by `df['email'].str.match(email_pattern)` (line 99-100).  Python's
`$` also matches just before one trailing newline. -/
def emailRegexMatch (s : String) : Bool :=
  let cs := s.toList
  emailCore cs ||
    (match cs.getLast? with
     | some c => c == '\n' && emailCore cs.dropLast
     | none => false)

/-- The fixed blacklist `invalid_patterns` of lines 91-95. -/
def invalid_patterns : List String :=
  ["invalid_email", "user@.com", "user@", "@example.com",
   "user..name@example.com", "user name@example.com", "user@example..com",
   "user@.example.com", "user@example.com.", "user@-example.com",
   "user@example-.com"]

/-! ### First-seen deduplication (pandas drop_duplicates keep='first') -/

/-- Worker for `dedupBy`: keep a row iff its key was not seen before. -/
def dedupByAux {α : Type u} {β : Type v} (key : α → β) [DecidableEq β] :
    List β → List α → List α
  | _, [] => []
  | seen, x :: xs =>
    if key x ∈ seen then dedupByAux key seen xs
    else x :: dedupByAux key (key x :: seen) xs

/-- Pandas `df.drop_duplicates(subset=[key], keep='first')`: first occurrence of
each key survives, in input order. -/
def dedupBy {α : Type u} {β : Type v} (key : α → β) [DecidableEq β]
    (l : List α) : List α :=
  dedupByAux key [] l

/-! ### Customers -/

/-- A raw/cleaned customer row (columns of `customers.csv`). -/
structure Customer where
  customer_id : Option String
  name : Option String
  email : Option String
deriving DecidableEq, Repr

/-- Row predicate of the blacklist filter `~df['email'].isin(invalid_patterns)`
(line 96). -/
def blacklistOk (r : Customer) : Bool :=
  match r.email with
  | some e => !(invalid_patterns.contains e)
  | none => true

/-- Row predicate of the regex filter
`df['email'].str.match(email_pattern, na=False)` (lines 99-100). -/
def regexOk (r : Customer) : Bool :=
  match r.email with
  | some e => emailRegexMatch e
  | none => false

/-- Function `transform_customers` (lines 82-116).  `hasNameCol` records whether the
raw frame has a `name` column; when it does not, line 110 sets every name to
the literal `'Unknown'`. -/
def transform_customers (hasNameCol : Bool) (rows : List Customer) :
    List Customer :=
  let s1 := rows.filter (fun r => r.email.isSome)
  let s2 := s1.filter blacklistOk
  let s3 := s2.filter regexOk
  let s4 := dedupBy (fun r => r.email) s3
  let s5 := dedupBy (fun r => r.customer_id) s4
  if hasNameCol then s5
  else s5.map (fun r => ⟨r.customer_id, some "Unknown", r.email⟩)

/-! ### Products -/

/-- A raw/cleaned product row (columns of `products.csv`).  `price` is
`some v` when the raw cell coerces to the numeric value `v` under
`pd.to_numeric(..., errors='coerce')`, `none` when it is absent or fails
coercion (line 141). -/
structure Product where
  product_id : Nat
  name : Option String
  category : Option String
  price : Option ℚ
deriving DecidableEq, Repr

/-- Table `category_mapping` of lines 122-129. -/
def category_mapping : List (String × String) :=
  [("electronics", "Electronics"), ("ELECTRONICS", "Electronics"),
   ("books", "Books"), ("BOOKS", "Books"),
   ("home", "Home"), ("HOME", "Home")]

/-- ASCII lower-casing of one character, as `str.lower()` acts on the
category values in play. -/
def lowerChar (c : Char) : Char :=
  if 'A' ≤ c && c ≤ 'Z' then Char.ofNat (c.toNat + 32) else c

/-- Python `str.lower()` on a whole string. -/
def lowerStr (s : String) : String := ⟨s.toList.map lowerChar⟩

/-- Line 132: `df['category'].str.lower().map(category_mapping).fillna(df['category'])`.
The raw value is lower-cased, looked up in the table; on a miss the
original (un-lowered) value is kept; `NaN` stays `NaN`. -/
def normalizeCategory (c : Option String) : Option String :=
  match c with
  | none => none
  | some s =>
    match category_mapping.lookup (lowerStr s) with
    | some v => some v
    | none => some s

/-- Function `transform_products` (lines 118-151). -/
def transform_products (rows : List Product) : List Product :=
  let s1 := rows.map (fun r =>
    ⟨r.product_id, r.name, normalizeCategory r.category, r.price⟩)
  let s2 := dedupBy (fun r => r.product_id) s1
  let s3 := dedupBy (fun r => (r.name, r.category)) s2
  let s4 := s3.filter (fun r => r.price.isSome)
  s4.filter (fun r =>
    match r.price with
    | some p => decide (0 < p ∧ p ≤ 10000)
    | none => false)

/-! ### Date parsing (validate_date, lines 160-173) -/

/-- Gregorian leap year. -/
def isLeap (y : Nat) : Bool := (y % 4 == 0 && y % 100 != 0) || y % 400 == 0

/-- Days in month `m` of year `y` (0 for an invalid month). -/
def daysInMonth (y m : Nat) : Nat :=
  if m == 1 || m == 3 || m == 5 || m == 7 || m == 8 || m == 10 || m == 12 then 31
  else if m == 4 || m == 6 || m == 9 || m == 11 then 30
  else if m == 2 then (if isLeap y then 29 else 28)
  else 0

/-- Whether `(y, m, d)` is a real calendar date. -/
def validYMD (y m d : Nat) : Bool :=
  1 ≤ m && m ≤ 12 && 1 ≤ d && d ≤ daysInMonth y m

/-- Digit run to its value, `none` when empty or non-digit. -/
def parseDigits (cs : List Char) : Option Nat :=
  if cs ≠ [] && cs.all Char.isDigit then
    some (cs.foldl (fun n c => n * 10 + (c.toNat - '0'.toNat)) 0)
  else none

/-- Modelled third-party call: `pd.to_datetime(s, errors='coerce')`
restricted to ISO `YYYY-M[M]-D[D]` inputs (the format of `transactions.csv`);
it yields a timestamp exactly when the fields are digits and form a real
calendar date, and `NaT` (here `none`) otherwise — in particular on
impossible day/month combinations such as `2023-02-30`. -/
def parseDate (s : String) : Option (Nat × Nat × Nat) :=
  match s.toList.splitOn '-' with
  | [ys, ms, ds] =>
    if ys.length == 4 && 1 ≤ ms.length && ms.length ≤ 2
        && 1 ≤ ds.length && ds.length ≤ 2 then
      match parseDigits ys, parseDigits ms, parseDigits ds with
      | some y, some m, some d => if validYMD y m d then some (y, m, d) else none
      | _, _, _ => none
    else none
  | _ => none

/-- Function `validate_date` (lines 160-173): `NaN`/empty → `None`; unparseable →
`None`; parsed year outside `[1900, 2100]` → `None`; otherwise the parsed
date. -/
def validate_date (o : Option String) : Option (Nat × Nat × Nat) :=
  match o with
  | none => none
  | some s =>
    if s = "" then none
    else
      match parseDate s with
      | none => none
      | some (y, m, d) => if y < 1900 || y > 2100 then none else some (y, m, d)

/-- Rendering `strftime('%Y-%m-%d')`: zero-padded canonical rendering (line 194). -/
def pad2 (n : Nat) : String := if n < 10 then "0" ++ toString n else toString n

/-- Zero-pad a year to four digits. -/
def pad4 (n : Nat) : String :=
  if n < 10 then "000" ++ toString n
  else if n < 100 then "00" ++ toString n
  else if n < 1000 then "0" ++ toString n
  else toString n

/-- Canonical `YYYY-MM-DD` form of a parsed date. -/
def renderDate : Nat × Nat × Nat → String
  | (y, m, d) => pad4 y ++ "-" ++ pad2 m ++ "-" ++ pad2 d

/-! ### Transactions -/

/-- A raw transaction row (columns of `transactions.csv`); `amount` as for
`Product.price`. -/
structure TxRow where
  transaction_id : Option String
  customer_id : Option String
  product_id : Option Nat
  amount : Option ℚ
  date : Option String
deriving DecidableEq, Repr

/-- A transaction row after line 176-177: the `date` column now holds the
validated parsed date. -/
structure TxRow2 where
  transaction_id : Option String
  customer_id : Option String
  product_id : Option Nat
  amount : Option ℚ
  date : Nat × Nat × Nat
deriving DecidableEq, Repr

/-- A cleaned transaction row (after the rename and `strftime` of lines
190-194). -/
structure TxClean where
  transaction_id : Option String
  customer_id : Option String
  product_id : Option Nat
  amount : Option ℚ
  transaction_date : String
deriving DecidableEq, Repr

/-- Pandas `df.dropna(how='all')` (line 157): keep a row iff some field is present. -/
def txNonEmpty (r : TxRow) : Bool :=
  r.transaction_id.isSome || r.customer_id.isSome || r.product_id.isSome ||
    r.amount.isSome || r.date.isSome

/-- Replace `date` by its validated parse. -/
def withDate (r : TxRow) (ymd : Nat × Nat × Nat) : TxRow2 :=
  ⟨r.transaction_id, r.customer_id, r.product_id, r.amount, ymd⟩

/-- Lines 176-177: `df['date'] = df['date'].apply(validate_date)` followed by
`df.dropna(subset=['date'])`. -/
def txDates (l : List TxRow) : List TxRow2 :=
  l.filterMap (fun r => (validate_date r.date).map (withDate r))

/-- Lines 184-188: `pd.to_numeric` coercion (already in the model),
`dropna(subset=['amount'])`, then the range filter
`(df['amount'] > 0) & (df['amount'] <= 10000)`. -/
def txAmountStep (l : List TxRow2) : List TxRow2 :=
  (l.filter (fun r => r.amount.isSome)).filter (fun r =>
    match r.amount with
    | some a => decide (0 < a ∧ a ≤ 10000)
    | none => false)

/-- Function `transform_transactions` (lines 153-200). -/
def transform_transactions (rows : List TxRow) : List TxClean :=
  let s1 := rows.filter txNonEmpty
  let s2 := txDates s1
  let s3 := dedupBy (fun r => r) s2
  let s4 := dedupBy (fun r => r.transaction_id) s3
  let s5 := txAmountStep s4
  s5.map (fun r =>
    ⟨r.transaction_id, r.customer_id, r.product_id, r.amount,
      renderDate r.date⟩)

/-! ### Referential integrity (lines 202-219) -/

/-- Function `validate_referential_integrity`: keep a transaction iff its
`customer_id` is one of the cleaned customers' ids and its `product_id` one
of the cleaned products' ids. -/
def validate_referential_integrity (customers : List Customer)
    (products : List Product) (transactions : List TxClean) : List TxClean :=
  let valid_customer_ids := customers.map (fun r => r.customer_id)
  let valid_product_ids := products.map (fun r => r.product_id)
  transactions.filter (fun t =>
    valid_customer_ids.contains t.customer_id &&
      (match t.product_id with
       | some pid => valid_product_ids.contains pid
       | none => false))

/-! ### Store, loads, reconciliation, orchestrator (lines 221-386) -/

/-- The three sqlite tables. -/
structure DBState where
  customers : List Customer
  products : List Product
  transactions : List TxClean
deriving DecidableEq, Repr

/-- Function `load_customers` (lines 221-240): `DELETE FROM customers`, insert every
cleaned row, commit. -/
def load_customers (df : List Customer) (db : DBState) : DBState :=
  ⟨df, db.products, db.transactions⟩

/-- Function `load_products` (lines 242-261). -/
def load_products (df : List Product) (db : DBState) : DBState :=
  ⟨db.customers, df, db.transactions⟩

/-- Function `load_transactions` (lines 263-283). -/
def load_transactions (df : List TxClean) (db : DBState) : DBState :=
  ⟨db.customers, db.products, df⟩

/-- Per-entity record counts. -/
structure Counts where
  customers : Nat
  products : Nat
  transactions : Nat
deriving DecidableEq, Repr

/-- Function `verify_data_loaded` (lines 285-309): read back `SELECT COUNT(*)` of each
table. -/
def verify_data_loaded (db : DBState) : Counts :=
  ⟨db.customers.length, db.products.length, db.transactions.length⟩

/-- Per-entity PASS/FAIL lines and the aggregate status printed by
`check_etl_pipeline`. -/
structure Report where
  customersMatch : Bool
  productsMatch : Bool
  transactionsMatch : Bool
  overall : Bool
deriving DecidableEq, Repr

/-- Function `check_etl_pipeline` (lines 311-332): compares transformed vs loaded
counts, prints per-entity PASS/FAIL and an aggregate status; it never
raises. -/
def check_etl_pipeline (transformed loaded : Counts) : Report :=
  let customer_match := transformed.customers == loaded.customers
  let product_match := transformed.products == loaded.products
  let transaction_match := transformed.transactions == loaded.transactions
  ⟨customer_match, product_match, transaction_match,
    customer_match && product_match && transaction_match⟩

/-- The raw extracted frames (output of `extract_data`).  `customersHasName`
records whether `customers.csv` has a `name` column (line 109). -/
structure RawData where
  customersHasName : Bool
  customers : List Customer
  products : List Product
  transactions : List TxRow

/-- Which of the three load calls raises (a persistence error, modelled as
an external fault oracle); `false` everywhere is the fault-free run. -/
structure LoadFail where
  c : Bool
  p : Bool
  t : Bool

/-- Outcome of `run_pipeline`: the final store contents, whether the
`finally` block closed the connection, and either the reconciliation report
or the re-raised stage error. -/
structure RunResult where
  db : DBState
  closed : Bool
  result : Except String Report

/-- Cleaned customers of a run (Step 4, line 349). -/
def cleanedCustomers (raw : RawData) : List Customer :=
  transform_customers raw.customersHasName raw.customers

/-- Cleaned products of a run (Step 4, line 350). -/
def cleanedProducts (raw : RawData) : List Product :=
  transform_products raw.products

/-- Integrity-filtered cleaned transactions of a run (Steps 4-5,
lines 351-356). -/
def cleanedTransactions (raw : RawData) : List TxClean :=
  validate_referential_integrity (cleanedCustomers raw) (cleanedProducts raw)
    (transform_transactions raw.transactions)

/-- The transformed counts recorded before loading (lines 359-363). -/
def transformedCounts (raw : RawData) : Counts :=
  ⟨(cleanedCustomers raw).length, (cleanedProducts raw).length,
    (cleanedTransactions raw).length⟩

/-- Function `run_pipeline` (lines 334-386) from Step 4 on.  Each load either
replaces its table and commits, or raises: the raised error aborts the run
(later stages do not execute), the uncommitted work of the failing load is
rolled back when the connection closes, and loads already committed for
earlier entities persist.  The `finally` block closes the connection on
every path.  `readBack` is the sqlite `COUNT(*)` read of Step 7
(`verify_data_loaded` in the real run). -/
def run_pipeline (fail : LoadFail) (readBack : DBState → Counts)
    (db0 : DBState) (raw : RawData) : RunResult :=
  let customers_clean := cleanedCustomers raw
  let products_clean := cleanedProducts raw
  let transactions_clean := cleanedTransactions raw
  let transformed := transformedCounts raw
  if fail.c then ⟨db0, true, .error "Error loading customers"⟩
  else
    let db1 := load_customers customers_clean db0
    if fail.p then ⟨db1, true, .error "Error loading products"⟩
    else
      let db2 := load_products products_clean db1
      if fail.t then ⟨db2, true, .error "Error loading transactions"⟩
      else
        let db3 := load_transactions transactions_clean db2
        let loaded := readBack db3
        ⟨db3, true, .ok (check_etl_pipeline transformed loaded)⟩

/-- The fault-free run with the real count read-back. -/
def run_pipeline_real (db0 : DBState) (raw : RawData) : RunResult :=
  run_pipeline ⟨false, false, false⟩ verify_data_loaded db0 raw

/-! ### Properties of first-seen deduplication -/

variable {α : Type u} {β : Type v} (key : α → β) [DecidableEq β]

theorem dedupByAux_sublist : ∀ (l : List α) (seen : List β),
    (dedupByAux key seen l).Sublist l
  | [], _ => by simp [dedupByAux]
  | x :: xs, seen => by
    simp only [dedupByAux]
    split
    · exact (dedupByAux_sublist xs seen).cons x
    · exact (dedupByAux_sublist xs (key x :: seen)).cons₂ x

theorem dedupByAux_mem {l : List α} {seen : List β} {r : α}
    (h : r ∈ dedupByAux key seen l) : r ∈ l :=
  (dedupByAux_sublist key l seen).subset h

theorem dedupByAux_key_not_seen : ∀ (l : List α) (seen : List β) (r : α),
    r ∈ dedupByAux key seen l → key r ∉ seen := by
  intro l
  induction l with
  | nil => intro seen r h; simp [dedupByAux] at h
  | cons x xs ih =>
    intro seen r h
    simp only [dedupByAux] at h
    split at h
    · exact ih seen r h
    · rcases List.mem_cons.mp h with rfl | h'
      · assumption
      · intro hseen
        exact (ih _ r h') (List.mem_cons_of_mem _ hseen)

theorem dedupByAux_find? : ∀ (l : List α) (seen : List β) (r : α),
    r ∈ dedupByAux key seen l →
    l.find? (fun y => decide (key y = key r)) = some r := by
  intro l
  induction l with
  | nil => intro seen r h; simp [dedupByAux] at h
  | cons x xs ih =>
    intro seen r h
    simp only [dedupByAux] at h
    split at h
    · rename_i hx
      have hr := dedupByAux_key_not_seen key xs seen r h
      have hne : ¬(key x = key r) := fun he => hr (he ▸ hx)
      simp only [List.find?, hne, decide_False]
      exact ih seen r h
    · rcases List.mem_cons.mp h with rfl | h'
      · simp [List.find?]
      · have hr := dedupByAux_key_not_seen key xs (key x :: seen) r h'
        have hne : ¬(key x = key r) := by
          intro he
          exact hr (he ▸ List.mem_cons_self _ _)
        simp only [List.find?, hne, decide_False]
        exact ih _ r h'

theorem dedupByAux_keys_nodup : ∀ (l : List α) (seen : List β),
    ((dedupByAux key seen l).map key).Nodup := by
  intro l
  induction l with
  | nil => intro seen; simp [dedupByAux]
  | cons x xs ih =>
    intro seen
    simp only [dedupByAux]
    split
    · exact ih seen
    · simp only [List.map_cons, List.nodup_cons]
      refine ⟨fun hmem => ?_, ih _⟩
      rcases List.mem_map.mp hmem with ⟨r, hr, hkey⟩
      exact (dedupByAux_key_not_seen key xs _ r hr) (hkey ▸ List.mem_cons_self _ _)

theorem dedupBy_sublist (l : List α) : (dedupBy key l).Sublist l :=
  dedupByAux_sublist key l []

theorem dedupBy_mem {l : List α} {r : α} (h : r ∈ dedupBy key l) : r ∈ l :=
  dedupByAux_mem key h

theorem dedupBy_find? {l : List α} {r : α} (h : r ∈ dedupBy key l) :
    l.find? (fun y => decide (key y = key r)) = some r :=
  dedupByAux_find? key l [] r h

theorem dedupBy_keys_nodup (l : List α) : ((dedupBy key l).map key).Nodup :=
  dedupByAux_keys_nodup key l []

/-! ### The customer filter chain as one predicate -/

/-- A raw customer row survives all three email filters of
`transform_customers`. -/
def customerKeep (r : Customer) : Bool :=
  r.email.isSome && blacklistOk r && regexOk r

theorem customers_filter_chain (rows : List Customer) :
    ((rows.filter (fun r => r.email.isSome)).filter blacklistOk).filter regexOk
      = rows.filter customerKeep := by
  simp only [List.filter_filter]
  congr 1
  funext a
  unfold customerKeep
  cases a.email.isSome <;> cases blacklistOk a <;> cases regexOk a <;> rfl

/-- The surviving rows of `transform_customers` before the name-column fix
of line 110. -/
def customersDeduped (rows : List Customer) : List Customer :=
  dedupBy (fun r => r.customer_id)
    (dedupBy (fun r => r.email) (rows.filter customerKeep))

theorem transform_customers_eq (b : Bool) (rows : List Customer) :
    transform_customers b rows =
      if b then customersDeduped rows
      else (customersDeduped rows).map
        (fun r => ⟨r.customer_id, some "Unknown", r.email⟩) := by
  unfold transform_customers customersDeduped
  simp only [customers_filter_chain]

theorem customersDeduped_keep {rows : List Customer} {r : Customer}
    (h : r ∈ customersDeduped rows) : customerKeep r = true := by
  unfold customersDeduped at h
  have h1 := dedupBy_mem (fun r : Customer => r.customer_id) h
  have h2 := dedupBy_mem (fun r : Customer => r.email) h1
  exact (List.mem_filter.mp h2).2

theorem customersDeduped_email_ok {rows : List Customer} {r : Customer}
    (h : r ∈ customersDeduped rows) :
    ∃ e, r.email = some e ∧ emailRegexMatch e = true ∧ e ∉ invalid_patterns := by
  have hk := customersDeduped_keep h
  unfold customerKeep at hk
  rcases Bool.and_eq_true_iff.mp hk with ⟨hk1, hreg⟩
  rcases Bool.and_eq_true_iff.mp hk1 with ⟨-, hbl⟩
  cases he : r.email with
  | none => rw [regexOk, he] at hreg; cases hreg
  | some e =>
    rw [regexOk, he] at hreg
    rw [blacklistOk, he, Bool.not_eq_true'] at hbl
    exact ⟨e, rfl, hreg, by simpa using hbl⟩

theorem customersDeduped_emails_nodup (rows : List Customer) :
    ((customersDeduped rows).map (fun r => r.email)).Nodup := by
  have hs : (customersDeduped rows).Sublist
      (dedupBy (fun r : Customer => r.email) (rows.filter customerKeep)) :=
    dedupBy_sublist (fun r : Customer => r.customer_id) _
  exact List.Nodup.sublist (hs.map _)
    (dedupBy_keys_nodup (fun r : Customer => r.email) _)

theorem customersDeduped_ids_nodup (rows : List Customer) :
    ((customersDeduped rows).map (fun r => r.customer_id)).Nodup :=
  dedupBy_keys_nodup (fun r : Customer => r.customer_id) _

/-! ### Claim theorems -/

/-- C1: every row in the cleaned output of `transform_customers` has an
email that matches the syntactic pattern of §4.1 step 3 and is not one of
the fixed blacklist literals; emails are unique within the cleaned batch,
and `customer_id` is unique within the cleaned batch. -/
theorem C1_customer_invariants (b : Bool) (rows : List Customer) :
    (∀ r ∈ transform_customers b rows,
        ∃ e, r.email = some e ∧ emailRegexMatch e = true ∧
          e ∉ invalid_patterns) ∧
    ((transform_customers b rows).map (fun r => r.email)).Nodup ∧
    ((transform_customers b rows).map (fun r => r.customer_id)).Nodup := by
  rw [transform_customers_eq]
  cases b
  · rw [if_neg Bool.false_ne_true]
    refine ⟨?_, ?_, ?_⟩
    · intro r hr
      rcases List.mem_map.mp hr with ⟨r', hr', rfl⟩
      obtain ⟨e, he, h1, h2⟩ := customersDeduped_email_ok hr'
      exact ⟨e, he, h1, h2⟩
    · rw [List.map_map]
      exact customersDeduped_emails_nodup rows
    · rw [List.map_map]
      exact customersDeduped_ids_nodup rows
  · rw [if_pos rfl]
    exact ⟨fun r hr => customersDeduped_email_ok hr,
      customersDeduped_emails_nodup rows, customersDeduped_ids_nodup rows⟩

/-- C1 witness: the invariants instantiated on a concrete two-row batch. -/
theorem C1_witness :
    ∃ e, (Customer.mk (some "1") (some "Ann") (some "a@b.com")).email = some e ∧
      emailRegexMatch e = true ∧ e ∉ invalid_patterns :=
  (C1_customer_invariants true
      [⟨some "1", some "Ann", some "a@b.com"⟩,
       ⟨some "2", some "Bob", some "user@.com"⟩]).1
    ⟨some "1", some "Ann", some "a@b.com"⟩ (by decide)

/-- C2: a transaction is in the output of the referential-integrity filter
iff it is in the input and its `customer_id` and `product_id` are ids of
the cleaned customer and product sets. -/
theorem C2_referential_integrity (cs : List Customer) (ps : List Product)
    (ts : List TxClean) (t : TxClean) :
    t ∈ validate_referential_integrity cs ps ts ↔
      t ∈ ts ∧ t.customer_id ∈ cs.map (fun r => r.customer_id) ∧
        ∃ pid, t.product_id = some pid ∧
          pid ∈ ps.map (fun r => r.product_id) := by
  obtain ⟨tid, cid, pidOpt, amt, td⟩ := t
  unfold validate_referential_integrity
  simp only [List.mem_filter, Bool.and_eq_true]
  cases pidOpt with
  | none =>
    simp
  | some pid =>
    simp [List.elem_iff]

/-- C2 witness: the filter keeps a concrete valid transaction and drops one
with a dangling product reference. -/
theorem C2_witness :
    (⟨some "t1", some "c1", some 1, some 5, "2024-01-15"⟩ : TxClean) ∈
      validate_referential_integrity
        [⟨some "c1", some "Ann", some "a@b.com"⟩]
        [⟨1, some "W", some "Books", some 5⟩]
        [⟨some "t1", some "c1", some 1, some 5, "2024-01-15"⟩] :=
  (C2_referential_integrity
      [⟨some "c1", some "Ann", some "a@b.com"⟩]
      [⟨1, some "W", some "Books", some 5⟩]
      [⟨some "t1", some "c1", some 1, some 5, "2024-01-15"⟩]
      ⟨some "t1", some "c1", some 1, some 5, "2024-01-15"⟩).mpr
    ⟨by decide, by decide, 1, rfl, by decide⟩

/-- The scenario batch of C3: two rows sharing an email, one empty email. -/
def customerScenario : List Customer :=
  [⟨some "1", none, some "a@b.com"⟩, ⟨some "2", none, some "a@b.com"⟩,
   ⟨some "3", none, some ""⟩]

/-- C3: every surviving row of the customer transform is the
first-encountered (in input order) filter-surviving row carrying its email,
so of two rows with the same email only the first can survive; and the
scenario batch cleans to exactly the single first row. -/
theorem C3_dedup_first_wins :
    (∀ (b : Bool) (rows : List Customer) (r : Customer),
        r ∈ transform_customers b rows →
        ∃ r0, (rows.filter customerKeep).find?
            (fun y => decide (y.email = r.email)) = some r0 ∧
          r0.customer_id = r.customer_id ∧ r0.email = r.email) ∧
    transform_customers false customerScenario
      = [⟨some "1", some "Unknown", some "a@b.com"⟩] := by
  constructor
  · intro b rows r hr
    rw [transform_customers_eq] at hr
    have main : ∀ r' ∈ customersDeduped rows,
        (rows.filter customerKeep).find?
          (fun y => decide (y.email = r'.email)) = some r' := by
      intro r' hr'
      unfold customersDeduped at hr'
      exact dedupBy_find? (fun r : Customer => r.email)
        (dedupBy_mem (fun r : Customer => r.customer_id) hr')
    cases b
    · rw [if_neg Bool.false_ne_true] at hr
      rcases List.mem_map.mp hr with ⟨r', hr', rfl⟩
      exact ⟨r', main r' hr', rfl, rfl⟩
    · rw [if_pos rfl] at hr
      exact ⟨r, main r hr, rfl, rfl⟩
  · decide

/-- C3 witness: the tie-break property applied to the surviving row of the
scenario batch. -/
theorem C3_witness :
    ∃ r0, (customerScenario.filter customerKeep).find?
        (fun y => decide (y.email =
          (Customer.mk (some "1") (some "Unknown") (some "a@b.com")).email))
        = some r0 ∧
      r0.customer_id =
        (Customer.mk (some "1") (some "Unknown") (some "a@b.com")).customer_id ∧
      r0.email =
        (Customer.mk (some "1") (some "Unknown") (some "a@b.com")).email :=
  C3_dedup_first_wins.1 false customerScenario
    ⟨some "1", some "Unknown", some "a@b.com"⟩ (by decide)

/-- C4: in the transaction transformer, a row whose date is absent or empty
is rejected; a row whose date fails to parse as a real calendar date
(e.g. `2023-02-30`) is rejected; a parsed year outside `[1900, 2100]` is
rejected; a row whose date parses within range is retained by the date
step, every retained row stems from a successfully validated one, and the
date is rendered canonically (`2024-01-15` yields `2024-01-15`). -/
theorem C4_date_validation :
    validate_date none = none ∧
    validate_date (some "") = none ∧
    (∀ s, parseDate s = none → validate_date (some s) = none) ∧
    (∀ s y m d, parseDate s = some (y, m, d) → y < 1900 ∨ 2100 < y →
        validate_date (some s) = none) ∧
    (∀ s y m d, parseDate s = some (y, m, d) → 1900 ≤ y → y ≤ 2100 →
        validate_date (some s) = some (y, m, d)) ∧
    (∀ (l : List TxRow) (r : TxRow) (ymd : Nat × Nat × Nat),
        r ∈ l → validate_date r.date = some ymd → withDate r ymd ∈ txDates l) ∧
    (∀ (l : List TxRow) (r2 : TxRow2), r2 ∈ txDates l →
        ∃ r ∈ l, validate_date r.date = some r2.date ∧ r2 = withDate r r2.date) ∧
    validate_date (some "2023-02-30") = none ∧
    transform_transactions
        [⟨some "t1", some "c1", some 7, some 50, some "2024-01-15"⟩]
      = [⟨some "t1", some "c1", some 7, some 50, "2024-01-15"⟩] := by
  refine ⟨rfl, rfl, ?_, ?_, ?_, ?_, ?_, by decide, by decide⟩
  · intro s h
    unfold validate_date
    by_cases hs : s = ""
    · simp [hs]
    · simp [hs, h]
  · intro s y m d h hy
    unfold validate_date
    by_cases hs : s = ""
    · simp [hs]
    · have : (y < 1900 || y > 2100) = true := by
        rcases hy with hy | hy <;> simp [hy]
      simp [hs, h, this]
  · intro s y m d h h1 h2
    unfold validate_date
    have hs : ¬s = "" := by
      intro hs
      rw [hs] at h
      cases h
    have : (y < 1900 || y > 2100) = false := by
      simp
      omega
    simp [hs, h, this]
  · intro l r ymd hr hv
    unfold txDates
    exact List.mem_filterMap.mpr ⟨r, hr, by rw [hv]; rfl⟩
  · intro l r2 h2
    unfold txDates at h2
    rcases List.mem_filterMap.mp h2 with ⟨r, hr, hmap⟩
    cases hv : validate_date r.date with
    | none => rw [hv] at hmap; cases hmap
    | some ymd =>
      rw [hv] at hmap
      have he : withDate r ymd = r2 := by simpa using hmap
      refine ⟨r, hr, ?_, ?_⟩
      · rw [hv, ← he]
        rfl
      · rw [← he]
        rfl

/-- C4 witness: the in-range acceptance clause applied to `2024-01-15`. -/
theorem C4_witness : validate_date (some "2024-01-15") = some (2024, 1, 15) :=
  C4_date_validation.2.2.2.2.1 "2024-01-15" 2024 1 15 (by decide)
    (by decide) (by decide)

/-- The three-row amount scenario of C5. -/
def txAmountScenario : List TxRow :=
  [⟨some "t1", some "c1", some 1, some 10001, some "2024-01-15"⟩,
   ⟨some "t2", some "c1", some 1, some 10000, some "2024-01-15"⟩,
   ⟨some "t3", some "c1", some 1, some 0, some "2024-01-15"⟩]

/-- C5: a transaction row whose amount coerces to `v` survives the amount
filter iff `0 < v ≤ 10000`; in the concrete scenario, amount `10001` is
rejected, `10000` is retained and `0` is rejected. -/
theorem C5_amount_filter :
    (∀ (l : List TxRow2) (r : TxRow2) (v : ℚ), r.amount = some v →
        (r ∈ txAmountStep l ↔ r ∈ l ∧ 0 < v ∧ v ≤ 10000)) ∧
    transform_transactions txAmountScenario
      = [⟨some "t2", some "c1", some 1, some 10000, "2024-01-15"⟩] := by
  constructor
  · intro l r v hv
    unfold txAmountStep
    simp only [List.mem_filter, hv, Option.isSome_some, and_true,
      decide_eq_true_eq, and_assoc]
  · decide

/-- C5 witness: the amount-filter characterization applied to the retained
`10000` row. -/
theorem C5_witness :
    (⟨some "t2", some "c1", some 1, some 10000, (2024, 1, 15)⟩ : TxRow2) ∈
        txAmountStep [⟨some "t2", some "c1", some 1, some 10000, (2024, 1, 15)⟩] ↔
      (⟨some "t2", some "c1", some 1, some 10000, (2024, 1, 15)⟩ : TxRow2) ∈
          [(⟨some "t2", some "c1", some 1, some 10000, (2024, 1, 15)⟩ : TxRow2)] ∧
        (0 : ℚ) < 10000 ∧ (10000 : ℚ) ≤ 10000 :=
  C5_amount_filter.1 [⟨some "t2", some "c1", some 1, some 10000, (2024, 1, 15)⟩]
    ⟨some "t2", some "c1", some 1, some 10000, (2024, 1, 15)⟩ 10000 rfl

/-- The raw inputs used to exhibit a partially-persisted failing run: one
valid customer, no products, no transactions. -/
def rawOneCustomer : RawData :=
  ⟨true, [⟨some "c1", some "Alice", some "a@b.com"⟩], [], []⟩

/-- C6 counterexample: on `rawOneCustomer` with the transaction load
raising, the run aborts with an error, yet the customers table holds the
cleaned customer row — a load-stage failure does not leave the store free
of every entity's rows. -/
theorem C6_counterexample :
    (run_pipeline ⟨false, false, true⟩ verify_data_loaded ⟨[], [], []⟩
        rawOneCustomer).result = .error "Error loading transactions" ∧
    (run_pipeline ⟨false, false, true⟩ verify_data_loaded ⟨[], [], []⟩
        rawOneCustomer).db.customers
      = [⟨some "c1", some "Alice", some "a@b.com"⟩] :=
  ⟨rfl, rfl⟩

/-- C6 amended: loads run per entity in sequence with separate commits.  A
failing load aborts the run before later entities are loaded and leaves the
failing and later tables unchanged, but entities committed before the
failure stay persisted (no cross-entity rollback).  With no load failure
every entity's validated rows are loaded in full; the connection is closed
on every path. -/
theorem C6_amended (fail : LoadFail) (readBack : DBState → Counts)
    (db0 : DBState) (raw : RawData) :
    (run_pipeline fail readBack db0 raw).closed = true ∧
    (fail.c = true →
      (run_pipeline fail readBack db0 raw).db = db0 ∧
      (run_pipeline fail readBack db0 raw).result
        = .error "Error loading customers") ∧
    (fail.c = false → fail.p = true →
      (run_pipeline fail readBack db0 raw).db
          = ⟨cleanedCustomers raw, db0.products, db0.transactions⟩ ∧
      (run_pipeline fail readBack db0 raw).result
        = .error "Error loading products") ∧
    (fail.c = false → fail.p = false → fail.t = true →
      (run_pipeline fail readBack db0 raw).db
          = ⟨cleanedCustomers raw, cleanedProducts raw, db0.transactions⟩ ∧
      (run_pipeline fail readBack db0 raw).result
        = .error "Error loading transactions") ∧
    (fail.c = false → fail.p = false → fail.t = false →
      (run_pipeline fail readBack db0 raw).db
          = ⟨cleanedCustomers raw, cleanedProducts raw,
              cleanedTransactions raw⟩ ∧
      (run_pipeline fail readBack db0 raw).result
        = .ok (check_etl_pipeline (transformedCounts raw)
            (readBack ⟨cleanedCustomers raw, cleanedProducts raw,
              cleanedTransactions raw⟩))) := by
  obtain ⟨fc, fp, ft⟩ := fail
  cases fc <;> cases fp <;> cases ft <;>
    simp [run_pipeline, load_customers, load_products, load_transactions]

/-- C6 witness: the amended behaviour at a concrete failing run. -/
theorem C6_witness :
    (run_pipeline ⟨false, false, true⟩ verify_data_loaded ⟨[], [], []⟩
        rawOneCustomer).db
        = ⟨cleanedCustomers rawOneCustomer, cleanedProducts rawOneCustomer,
            (⟨[], [], []⟩ : DBState).transactions⟩ ∧
    (run_pipeline ⟨false, false, true⟩ verify_data_loaded ⟨[], [], []⟩
        rawOneCustomer).result = .error "Error loading transactions" :=
  (C6_amended ⟨false, false, true⟩ verify_data_loaded ⟨[], [], []⟩
      rawOneCustomer).2.2.2.1 rfl rfl rfl

/-- C7 counterexample: the mixed-case raw category `ElEcTrOnIcS` does not
pass through unchanged — the product transformer canonicalizes it to
`Electronics`. -/
theorem C7_counterexample :
    (transform_products [⟨1, some "Widget", some "ElEcTrOnIcS", some 5⟩]).map
        (fun r => r.category)
      = [some "Electronics"] ∧
    (some "Electronics" : Option String) ≠ some "ElEcTrOnIcS" := by
  constructor
  · decide
  · decide

/-- C7 amended: category normalization lower-cases the raw value before the
lookup, so every case variant of a known category canonicalizes (in
particular `ElEcTrOnIcS` becomes `Electronics`), while a value whose
lower-cased form is not a key passes through unchanged with its original
casing. -/
theorem C7_amended (s : String) :
    (lowerStr s = "electronics" →
      normalizeCategory (some s) = some "Electronics") ∧
    (lowerStr s = "books" → normalizeCategory (some s) = some "Books") ∧
    (lowerStr s = "home" → normalizeCategory (some s) = some "Home") ∧
    (lowerStr s ∉ ["electronics", "ELECTRONICS", "books", "BOOKS",
        "home", "HOME"] →
      normalizeCategory (some s) = some s) := by
  refine ⟨?_, ?_, ?_, ?_⟩ <;> intro h <;>
    simp only [normalizeCategory, category_mapping, List.lookup]
  · rw [h]
    rfl
  · rw [h]
    rfl
  · rw [h]
    rfl
  · simp only [List.mem_cons, List.not_mem_nil, or_false, not_or] at h
    obtain ⟨h1, h2, h3, h4, h5, h6⟩ := h
    have e1 : (lowerStr s == "electronics") = false := beq_eq_false_iff_ne.mpr h1
    have e2 : (lowerStr s == "ELECTRONICS") = false := beq_eq_false_iff_ne.mpr h2
    have e3 : (lowerStr s == "books") = false := beq_eq_false_iff_ne.mpr h3
    have e4 : (lowerStr s == "BOOKS") = false := beq_eq_false_iff_ne.mpr h4
    have e5 : (lowerStr s == "home") = false := beq_eq_false_iff_ne.mpr h5
    have e6 : (lowerStr s == "HOME") = false := beq_eq_false_iff_ne.mpr h6
    rw [e1, e2, e3, e4, e5, e6]

/-- C7 witness: the amended behaviour at the mixed-case literal. -/
theorem C7_witness :
    normalizeCategory (some "ElEcTrOnIcS") = some "Electronics" :=
  (C7_amended "ElEcTrOnIcS").1 (by decide)

/-- C8: the pipeline is idempotent — a second fault-free run on the same
raw inputs, starting from the store the first run left behind, produces the
same store contents, the same reconciliation result and the same read-back
counts. -/
theorem C8_idempotent (db0 : DBState) (raw : RawData) :
    (run_pipeline_real (run_pipeline_real db0 raw).db raw).db
        = (run_pipeline_real db0 raw).db ∧
    (run_pipeline_real (run_pipeline_real db0 raw).db raw).result
        = (run_pipeline_real db0 raw).result ∧
    verify_data_loaded (run_pipeline_real (run_pipeline_real db0 raw).db raw).db
        = verify_data_loaded (run_pipeline_real db0 raw).db :=
  ⟨rfl, rfl, rfl⟩

/-- The C9 batch: the first row shares `product_id` 1 but its price fails
numeric coercion; the second row has a valid in-range price. -/
def productBatchC9 : List Product :=
  [⟨1, some "Widget A", some "Gadgets", none⟩,
   ⟨1, some "Widget B", some "Toys", some 5⟩]

/-- C9: because the price steps run after deduplication, a batch exists in
which a row with `product_id` 1 and valid in-range price 5 appears in the
input, yet no row with `product_id` 1 appears in the cleaned output: the
earlier unpriceable row wins first-seen dedup and is then dropped by the
price filter. -/
theorem C9_dedup_shadows_price :
    (∃ r ∈ productBatchC9, r.product_id = 1 ∧ r.price = some 5 ∧
        (0 : ℚ) < 5 ∧ (5 : ℚ) ≤ 10000) ∧
    ∀ r ∈ transform_products productBatchC9, r.product_id ≠ 1 := by
  constructor
  · exact ⟨⟨1, some "Widget B", some "Toys", some 5⟩, by decide, rfl, rfl,
      by decide, by decide⟩
  · decide

/-- C10: with no load failure the run always completes: the result is the
reconciliation report for whatever counts the store read-back returns —
never an error — the connection is closed, and a count mismatch only makes
the aggregate report FAIL. -/
theorem C10_reconciliation_never_aborts (readBack : DBState → Counts)
    (db0 : DBState) (raw : RawData) :
    (run_pipeline ⟨false, false, false⟩ readBack db0 raw).closed = true ∧
    (run_pipeline ⟨false, false, false⟩ readBack db0 raw).result
        = .ok (check_etl_pipeline (transformedCounts raw)
            (readBack ⟨cleanedCustomers raw, cleanedProducts raw,
              cleanedTransactions raw⟩)) ∧
    (∀ tc lc : Counts, tc.transactions ≠ lc.transactions →
        (check_etl_pipeline tc lc).overall = false) := by
  refine ⟨rfl, rfl, ?_⟩
  intro tc lc h
  unfold check_etl_pipeline
  simp [h]

/-- C10 witness: a concrete fault-free run with an adversarial read-back
oracle still yields a report, and mismatching counts yield aggregate FAIL. -/
theorem C10_witness :
    (check_etl_pipeline ⟨0, 0, 1⟩ ⟨0, 0, 2⟩).overall = false :=
  (C10_reconciliation_never_aborts (fun _ => ⟨0, 0, 2⟩) ⟨[], [], []⟩
      ⟨true, [], [], []⟩).2.2 ⟨0, 0, 1⟩ ⟨0, 0, 2⟩ (by decide)

end ETL
